import Mathlib

/-!
Verification of the komorebi tiling window manager core against its
natural-language specification.

The Rust sources under `src/komorebi/src/` (`window_manager.rs`,
`container.rs`, `window.rs`, `main.rs`) are embedded shallowly below.
Supporting modules that the repository references but that are not part of
the provided sources (`ring.rs`, `workspace.rs`, `monitor.rs`, and the
`komorebi_core` crate providing `Rect`, `Flip`, `Layout`,
`OperationDirection`, `Sizing`) are modelled from the specification, and
every such definition is marked `Modelled from the spec:` in its doc
comment.

Machine integers (`i32`, `isize`) are modelled as `Int`; none of the
embedded arithmetic is anywhere near overflow for the inputs considered.
OS calls are modelled as emitted effects; the process-global
`HIDDEN_HWNDS` registry is threaded explicitly as a `List Int`.
-/

namespace Komorebi

/-- Modelled from the spec: `komorebi_core::Rect` (missing from src/), a
rectangle with `left`/`top` anchor and `right`/`bottom` extent, fields
`i32` modelled as `Int`. -/
structure Rect where
  left : Int
  top : Int
  right : Int
  bottom : Int
deriving DecidableEq, Repr

/-- Modelled from the spec: `komorebi_core::Flip` (missing from src/),
the layout flip state: `Horizontal | Vertical | HorizontalAndVertical`. -/
inductive Flip where
  | horizontal
  | vertical
  | horizontalAndVertical
deriving DecidableEq, Repr

/-- Modelled from the spec: `komorebi_core::OperationDirection`
(missing from src/). -/
inductive OperationDirection where
  | left
  | right
  | up
  | down
deriving DecidableEq, Repr

/-- Modelled from the spec: `OperationDirection::opposite` (missing from
src/); §4.6 of the spec says a flip swaps Left/Right and Up/Down, so the
opposite of each direction is its mirror along its own axis. -/
def OperationDirection.opposite : OperationDirection → OperationDirection
  | .left => .right
  | .right => .left
  | .up => .down
  | .down => .up

/-- Modelled from the spec: `komorebi_core::Sizing` (missing from src/). -/
inductive Sizing where
  | increase
  | decrease
deriving DecidableEq, Repr

/-- Modelled from the spec: `komorebi_core::Layout` (missing from src/),
the six layout algorithms of §3. -/
inductive Layout where
  | bsp
  | columns
  | rows
  | verticalStack
  | horizontalStack
  | ultrawideVerticalStack
deriving DecidableEq, Repr

/-! ## Ring

`ring.rs` exists in the repository (`mod ring` in `main.rs`) but is not
among the provided sources, so the `Ring` substrate is modelled from
spec §4.1. -/

/-- Modelled from the spec: `Ring<T>` (§3, §4.1; `ring.rs` missing from
src/): an ordered sequence of elements and a focused index. -/
structure Ring (α : Type) where
  elements : List α
  focused : Nat := 0
deriving Repr

/-- Modelled from the spec (§4.1): `push_back(x)` appends; focused index
unchanged. -/
def Ring.push_back (r : Ring α) (x : α) : Ring α :=
  { r with elements := r.elements ++ [x] }

/-- Modelled from the spec (§4.1): `focus(i)` sets the focused index. -/
def Ring.focus (r : Ring α) (i : Nat) : Ring α :=
  { r with focused := i }

/-- Modelled from the spec (§4.1): `remove(i)` removes the element at
`i` (returning it, `None` when out of range, like `VecDeque::remove`);
if `i < focused_idx` the focused index decrements; if `i == focused_idx`
and the new length is positive the focused index becomes
`min(focused_idx, new_len - 1)`. -/
def Ring.remove (r : Ring α) (i : Nat) : Option α × Ring α :=
  match r.elements.get? i with
  | none => (none, r)
  | some x =>
    let els := r.elements.eraseIdx i
    let f :=
      if i < r.focused then r.focused - 1
      else if i = r.focused ∧ 0 < els.length then min r.focused (els.length - 1)
      else r.focused
    (some x, { elements := els, focused := f })

/-- Modelled from the spec (§4.1): `insert(i, x)` inserts; if
`i ≤ focused_idx` the focused index increments. -/
def Ring.insert (r : Ring α) (i : Nat) (x : α) : Ring α :=
  { elements := r.elements.insertIdx i x
    focused := if i ≤ r.focused then r.focused + 1 else r.focused }

/-- Modelled from the spec (§4.1): `focused()` accessor (`None` when the
focused index is out of range). -/
def Ring.focusedElem (r : Ring α) : Option α :=
  r.elements.get? r.focused

/-! ## Window (`src/komorebi/src/window.rs`) -/

/-- `Window` from `window.rs`: wraps an opaque OS handle (`isize`,
modelled as `Int`). -/
structure Window where
  hwnd : Int
deriving DecidableEq, Repr

/-- The invisible-border correction applied by `Window::set_position`
(`window.rs` lines 109-121): the hard-coded `border` rect
`{left: 12, top: 0, right: 24, bottom: 12}` is subtracted from
`left`/`top` and added to `right`/`bottom` of the layout rect before the
OS positioning call is issued.  This function computes the rect actually
passed to `WindowsApi::position_window`. -/
def set_position_issued_rect (layout : Rect) : Rect :=
  let border : Rect := { left := 12, top := 0, right := 24, bottom := 12 }
  { left := layout.left - border.left
    top := layout.top - border.top
    right := layout.right + border.right
    bottom := layout.bottom + border.bottom }

/-! ## Container (`src/komorebi/src/container.rs`) -/

/-- `Container` from `container.rs`: an id (a `nanoid` in the source;
freshness of ids plays no role in the claims below, so newly created
containers are given the empty id) and a `Ring` of windows. -/
structure Container where
  id : String := ""
  windows : Ring Window
deriving Repr

/-- `Container::contains_window` (`container.rs` lines 47-55): a for
loop returning true as soon as some window has the handle. -/
def Container.contains_window (c : Container) (hwnd : Int) : Bool :=
  c.windows.elements.any fun w => w.hwnd == hwnd

/-- The loop of `Container::idx_for_window` (`container.rs` lines
57-66): iterate with index `i` starting at `i0`, overwriting the
accumulator with `some i` at every match, so the final value is the last
match (or the initial accumulator when there is none). -/
def idxForWindowLoop : List Window → Int → Nat → Option Nat → Option Nat
  | [], _, _, acc => acc
  | w :: rest, hwnd, i, acc =>
    idxForWindowLoop rest hwnd (i + 1) (if w.hwnd == hwnd then some i else acc)

/-- `Container::idx_for_window` (`container.rs` lines 57-66): starts
with accumulator `None` and index 0. -/
def Container.idx_for_window (c : Container) (hwnd : Int) : Option Nat :=
  idxForWindowLoop c.windows.elements hwnd 0 none

/-- `Container::remove_window_by_idx` (`container.rs` lines 68-70):
delegates to the ring's `remove`. -/
def Container.remove_window_by_idx (c : Container) (idx : Nat) :
    Option Window × Container :=
  let (w, ring) := c.windows.remove idx
  (w, { c with windows := ring })

/-- `Container::focus_window` (`container.rs` lines 89-92). -/
def Container.focus_window (c : Container) (idx : Nat) : Container :=
  { c with windows := c.windows.focus idx }

/-- `Container::remove_focused_window` (`container.rs` lines 72-81):
remove at the focused index, then if that index was nonzero focus
`focused_idx - 1`. -/
def Container.remove_focused_window (c : Container) :
    Option Window × Container :=
  let focused_idx := c.windows.focused
  let (window, c1) := c.remove_window_by_idx focused_idx
  if focused_idx ≠ 0 then (window, c1.focus_window (focused_idx - 1))
  else (window, c1)

/-- `Container::add_window` (`container.rs` lines 83-86): push back and
focus the new (last) window. -/
def Container.add_window (c : Container) (w : Window) : Container :=
  let pushed := c.windows.push_back w
  { c with windows := pushed.focus (pushed.elements.length - 1) }

/-! ### Helper characterisation of the `idx_for_window` loop -/

/-- Index of the last window with the given handle, computed
structurally (head index 0). -/
def lastMatchIdx : List Window → Int → Option Nat
  | [], _ => none
  | w :: rest, hwnd =>
    match lastMatchIdx rest hwnd with
    | some p => some (p + 1)
    | none => if w.hwnd == hwnd then some 0 else none

/-! ## flip_layout (`src/komorebi/src/window_manager.rs` lines 754-794)

`WindowManager::flip_layout` reads the focused workspace's current
`layout_flip` and sets a new one according to a nested match; the pure
state table of that match is embedded here.  (The trailing
`update_focused_workspace(false)` re-projection is not part of claim C3,
which is about the flip state that gets set.) -/

/-- The `layout_flip` transition of `WindowManager::flip_layout`
(`window_manager.rs` lines 759-791), embedded match arm by match arm. -/
def flip_layout_next : Option Flip → Flip → Option Flip
  | none, layout_flip => some layout_flip
  | some .horizontal, .horizontal => none
  | some .horizontal, .vertical => some .horizontalAndVertical
  | some .horizontal, .horizontalAndVertical => some .horizontalAndVertical
  | some .vertical, .horizontal => some .horizontalAndVertical
  | some .vertical, .vertical => none
  | some .vertical, .horizontalAndVertical => some .horizontalAndVertical
  | some .horizontalAndVertical, .horizontal => some .vertical
  | some .horizontalAndVertical, .vertical => some .horizontal
  | some .horizontalAndVertical, .horizontalAndVertical => none

/-- The 2-bit encoding of a flip state used by claim C3: `None` encodes
neither bit, `Horizontal` and `Vertical` each encode one bit,
`HorizontalAndVertical` encodes both. -/
def flipBits : Option Flip → Nat
  | none => 0
  | some .horizontal => 1
  | some .vertical => 2
  | some .horizontalAndVertical => 3

/-- Decode the 2-bit flip encoding (inverse of `flipBits`). -/
def flipOfBits : Nat → Option Flip
  | 0 => none
  | 1 => some .horizontal
  | 2 => some .vertical
  | _ => some .horizontalAndVertical

/-- The transition that claim C3 asserts `flip_layout` implements:
bitwise XOR of the encodings of the current flip state and the
argument. -/
def flip_layout_xor_claim (current : Option Flip) (f : Flip) : Option Flip :=
  flipOfBits (flipBits current ^^^ flipBits (some f))

/-! ## Workspace and Monitor

`workspace.rs` and `monitor.rs` exist in the repository (`mod workspace`,
`mod monitor` in `main.rs`) but are not among the provided sources; their
data and the operations used by `window_manager.rs` are modelled from
spec §3, §4.4 and §4.5. -/

/-- Modelled from the spec (§3; `workspace.rs` missing from src/): the
workspace record. -/
structure Workspace where
  name : Option String := none
  containers : Ring Container
  monocle_container : Option Container := none
  monocle_restore_idx : Option Nat := none
  maximized_window : Option Window := none
  floating_windows : List Window := []
  layout : Layout := .bsp
  layout_flip : Option Flip := none
  workspace_padding : Option Int := none
  container_padding : Option Int := none
  resize_dimensions : List (Option Rect) := []
  tile : Bool := true
deriving Repr

/-- Modelled from the spec (§4.4): `visible_windows()` returns, for each
container, its focused window (`Some`) or `None`. -/
def Workspace.visible_windows (ws : Workspace) : List (Option Window) :=
  ws.containers.elements.map fun c => c.windows.elements.get? c.windows.focused

/-- Modelled from the spec (§4.4): `new_container_for_window(w)` creates
a fresh container holding only `w`, pushes it back, pushes a `None` into
`resize_dimensions`, and focuses the new container. -/
def Workspace.new_container_for_window (ws : Workspace) (w : Window) :
    Workspace :=
  let pushed := ws.containers.push_back { windows := { elements := [w] } }
  { ws with
    containers := pushed.focus (pushed.elements.length - 1)
    resize_dimensions := ws.resize_dimensions ++ [none] }

/-- Modelled from the spec (§4.4): index of the first container holding
the handle, the lookup behind `remove_window(hwnd)`. -/
def Workspace.container_idx_for_window (ws : Workspace) (hwnd : Int) :
    Option Nat :=
  ws.containers.elements.findIdx? fun c => c.contains_window hwnd

/-- Modelled from the spec (§4.4): `remove_window(hwnd)` finds and
removes the window from whichever container holds it (the in-container
index via `idx_for_window`) and cleans up the container (and its resize
slot) if it becomes empty; it errors when no container holds the
handle (the `?` at `window_manager.rs` line 298). -/
def Workspace.remove_window (ws : Workspace) (hwnd : Int) :
    Except String Workspace :=
  match ws.container_idx_for_window hwnd with
  | none => .error "there is no window"
  | some ci =>
    match ws.containers.elements.get? ci with
    | none => .error "there is no container"
    | some c =>
      match c.idx_for_window hwnd with
      | none => .error "there is no window"
      | some wi =>
        let (_, c1) := c.remove_window_by_idx wi
        if c1.windows.elements.length = 0 then
          let (_, containers1) :=
            ({ ws.containers with
                elements := ws.containers.elements.set ci c1 } : Ring Container).remove ci
          .ok { ws with
            containers := containers1
            resize_dimensions := ws.resize_dimensions.eraseIdx ci }
        else
          .ok { ws with
            containers :=
              { ws.containers with
                elements := ws.containers.elements.set ci c1 } }

/-- Modelled from the spec (§4.4): `new_container_for_focused_window`
removes the focused window from the focused container and promotes it
into a new container inserted immediately after the current focused
container (which is then focused); if the source container becomes
empty, it is removed together with its resize slot. -/
def Workspace.new_container_for_focused_window (ws : Workspace) :
    Except String Workspace :=
  match ws.containers.elements.get? ws.containers.focused with
  | none => .error "there is no container"
  | some c =>
    let fidx := ws.containers.focused
    let (w?, c1) := c.remove_focused_window
    match w? with
    | none => .error "there is no window"
    | some w =>
      let newC : Container := { windows := { elements := [w] } }
      if c1.windows.elements.length = 0 then
        let (_, containers1) :=
          ({ ws.containers with
              elements := ws.containers.elements.set fidx c1 } : Ring Container).remove fidx
        .ok { ws with
          containers := (containers1.insert fidx newC).focus fidx
          resize_dimensions :=
            (ws.resize_dimensions.eraseIdx fidx).insertIdx fidx none }
      else
        .ok { ws with
          containers :=
            (({ ws.containers with
                elements := ws.containers.elements.set fidx c1 } : Ring Container).insert
              (fidx + 1) newC).focus (fidx + 1)
          resize_dimensions := ws.resize_dimensions.insertIdx (fidx + 1) none }

/-- The default (empty) workspace appended by
`ensure_workspace_count`. -/
def defaultWorkspace : Workspace := { containers := { elements := [] } }

/-- Modelled from the spec (§3; `monitor.rs` missing from src/): the
monitor record (the persistent workspace-name map plays no role in the
claims and is omitted). -/
structure Monitor where
  id : Int := 0
  work_area_size : Rect := { left := 0, top := 0, right := 0, bottom := 0 }
  workspaces : Ring Workspace
deriving Repr

/-- Modelled from the spec (§4.5): `ensure_workspace_count(n)` appends
default workspaces while the count is below `n`; it never shrinks. -/
def Monitor.ensure_workspace_count (m : Monitor) (n : Nat) : Monitor :=
  { m with
    workspaces :=
      { m.workspaces with
        elements := m.workspaces.elements ++
          List.replicate (n - m.workspaces.elements.length) defaultWorkspace } }

/-! ## WindowManager (`src/komorebi/src/window_manager.rs`) -/

/-- `WindowManager` from `window_manager.rs`: the Ring of monitors and
the pause flag (the event channel, command listener, file watcher and
virtual-desktop id are process plumbing outside every claim). -/
structure WindowManager where
  monitors : Ring Monitor
  is_paused : Bool := false
deriving Repr

/-- OS-facing side effects emitted by the reducers: hiding a window
(`Window::hide`) and re-projecting the focused workspace
(`update_focused_workspace`). -/
inductive Effect where
  | hide (hwnd : Int)
  | reproject
deriving DecidableEq, Repr

/-- `focused_monitor` (`impl_ring_elements!` accessor). -/
def WindowManager.focused_monitor? (wm : WindowManager) : Option Monitor :=
  wm.monitors.elements.get? wm.monitors.focused

/-- `WindowManager::focused_workspace` (`window_manager.rs` lines
1015-1020). -/
def WindowManager.focused_workspace? (wm : WindowManager) : Option Workspace :=
  wm.focused_monitor?.bind fun m => m.workspaces.elements.get? m.workspaces.focused

/-- `WindowManager::focused_container` (`window_manager.rs` lines
1057-1061). -/
def WindowManager.focused_container? (wm : WindowManager) : Option Container :=
  wm.focused_workspace?.bind fun ws =>
    ws.containers.elements.get? ws.containers.focused

/-- Write back a workspace at (monitor index, workspace index); the
`&mut` write-back of the Rust accessors. -/
def WindowManager.setWorkspaceAt (wm : WindowManager) (mi wi : Nat)
    (ws : Workspace) : WindowManager :=
  match wm.monitors.elements.get? mi with
  | none => wm
  | some m =>
    { wm with
      monitors :=
        { wm.monitors with
          elements := wm.monitors.elements.set mi
            { m with
              workspaces :=
                { m.workspaces with
                  elements := m.workspaces.elements.set wi ws } } } }

/-- Write back a monitor at an index. -/
def WindowManager.setMonitorAt (wm : WindowManager) (mi : Nat) (m : Monitor) :
    WindowManager :=
  { wm with
    monitors := { wm.monitors with elements := wm.monitors.elements.set mi m } }

/-- Write back the focused workspace. -/
def WindowManager.setFocusedWorkspace (wm : WindowManager) (ws : Workspace) :
    WindowManager :=
  match wm.monitors.elements.get? wm.monitors.focused with
  | none => wm
  | some m => wm.setWorkspaceAt wm.monitors.focused m.workspaces.focused ws

/-- `WindowManager::remove_window_from_container` (`window_manager.rs`
lines 627-638): error when the focused container holds exactly one
window, otherwise `Workspace::new_container_for_focused_window` followed
by `update_focused_workspace(true)` (modelled, like every re-projection,
as a `reproject` effect).  The reducer returns the possibly-updated
state, the emitted effects, and the `Result`. -/
def WindowManager.remove_window_from_container (wm : WindowManager) :
    WindowManager × List Effect × Except String Unit :=
  match wm.focused_container? with
  | none => (wm, [], .error "there is no container")
  | some c =>
    if c.windows.elements.length = 1 then
      (wm, [], .error "a container must have at least one window")
    else
      match wm.focused_workspace? with
      | none => (wm, [], .error "there is no workspace")
      | some ws =>
        match ws.new_container_for_focused_window with
        | .error e => (wm, [], .error e)
        | .ok ws1 => (wm.setFocusedWorkspace ws1, [.reproject], .ok ())

/-! ## The hidden-window registry and the ctrl-c finalization path

`HIDDEN_HWNDS` (`main.rs` lines 51) is a process-global `Vec<isize>`;
it is threaded through explicitly as a `List Int`. -/

/-- The registry effect of `Window::restore` (`window.rs` lines
135-145): find the position of the first occurrence of the handle and
remove it (no change when absent). -/
def removeFirstHwnd : List Int → Int → List Int
  | [], _ => []
  | x :: rest, h => if x == h then rest else x :: removeFirstHwnd rest h

/-- Handles of all windows of one container, in ring order. -/
def hwndsOfContainer (c : Container) : List Int :=
  c.windows.elements.map Window.hwnd

/-- Handles of all container windows of one workspace. -/
def hwndsOfWorkspace (ws : Workspace) : List Int :=
  ws.containers.elements.flatMap hwndsOfContainer

/-- Handles of all container windows of one monitor. -/
def hwndsOfMonitor (m : Monitor) : List Int :=
  m.workspaces.elements.flatMap hwndsOfWorkspace

/-- Handles reached by the nested loops of
`WindowManager::restore_all_windows` (`window_manager.rs` lines
473-485): every window of every container of every workspace of every
monitor, in iteration order.  Floating windows, monocle containers and
maximized windows are not visited by those loops. -/
def WindowManager.all_container_hwnds (wm : WindowManager) : List Int :=
  wm.monitors.elements.flatMap hwndsOfMonitor

/-- `WindowManager::restore_all_windows` (`window_manager.rs` lines
473-485) as its action on the `HIDDEN_HWNDS` registry: each visited
window's `restore()` removes the first occurrence of its handle. -/
def WindowManager.restore_all_windows (wm : WindowManager)
    (hidden_hwnds : List Int) : List Int :=
  wm.all_container_hwnds.foldl removeFirstHwnd hidden_hwnds

/-- The ctrl-c finalization path of `main` (`main.rs` lines 233-250):
after the interrupt signal is received, `restore_all_windows` runs and
then the process exits with status 130.  The pair is (registry after
restoration, exit status). -/
def ctrlc_finalize (wm : WindowManager) (hidden_hwnds : List Int) :
    List Int × Nat :=
  (wm.restore_all_windows hidden_hwnds, 130)

/-- Concrete window manager used to instantiate claims C7 and C8: one
monitor with one workspace holding one container with one window of
handle 7. -/
def wmOneWindow : WindowManager :=
  { monitors :=
      { elements :=
          [{ workspaces :=
              { elements :=
                  [{ containers :=
                      { elements := [{ windows := { elements := [⟨7⟩] } }] }
                     resize_dimensions := [none] }] } }] } }

/-! ## Window classification (`Window::should_manage`, `window.rs` lines
219-280) -/

/-- Modelled from the spec: the window style read by `should_manage`
(`styles.rs` missing from src/); only the flag the function tests is
modelled, a boolean standing for `contains(CAPTION)`. -/
structure GwlStyle where
  caption : Bool
deriving DecidableEq, Repr

/-- Modelled from the spec: the extended window style read by
`should_manage` (`styles.rs` missing from src/); booleans standing for
`contains(WINDOWEDGE | DLGMODALFRAME | LAYERED)`. -/
structure GwlExStyle where
  windowedge : Bool
  dlgmodalframe : Bool
  layered : Bool
deriving DecidableEq, Repr

/-- Modelled from the spec: `WindowManagerEvent`
(`window_manager_event.rs` missing from src/); `should_manage` only
distinguishes `Hide` events from everything else, so the payloads are
dropped. -/
inductive WindowManagerEvent where
  | hideEv
  | showEv
  | focusChangeEv
  | manageEv
  | unmanageEv
deriving DecidableEq, Repr

/-- The OS-attribute reads `should_manage` performs on a window; `none`
models a failed read (`Result::Err` in the source).  The `class()` read
is named `wclass` because `class` is reserved in Lean. -/
structure WindowInfo where
  hwnd : Int := 0
  title : Option String
  exe : Option String
  wclass : Option String
  cloaked : Option Bool
  style : Option GwlStyle
  ex_style : Option GwlExStyle
deriving Repr

/-- `Window::should_manage` (`window.rs` lines 219-280), translated
branch for branch: a failed title read gives `Ok(false)`; a failed
cloak/style/ex-style read propagates as an error (`?`); a failed
exe/class read falls through the `if let` to `Ok(false)`; cloaked
windows are only considered when the event is `Hide`; float identifiers
veto; then either the style/ex-style condition or the manage-identifier
override admits the window. -/
def should_manage (float_identifiers manage_identifiers
    layered_exe_whitelist : List String) (w : WindowInfo)
    (event : Option WindowManagerEvent) : Except Unit Bool :=
  match w.title with
  | none => .ok false
  | some _ =>
    match w.cloaked with
    | none => .error ()
    | some is_cloaked =>
      let allow_cloaked :=
        match event with
        | some .hideEv => true
        | _ => false
      if allow_cloaked || !is_cloaked then
        match w.title, w.exe, w.wclass with
        | some title, some exe_name, some cls =>
          if float_identifiers.contains title ||
              float_identifiers.contains exe_name ||
              float_identifiers.contains cls then
            .ok false
          else
            let managed_override :=
              manage_identifiers.contains exe_name ||
                manage_identifiers.contains cls
            let allow_layered := layered_exe_whitelist.contains exe_name
            match w.style with
            | none => .error ()
            | some style =>
              match w.ex_style with
              | none => .error ()
              | some ex_style =>
                if (style.caption && ex_style.windowedge &&
                      !ex_style.dlgmodalframe &&
                      (allow_layered || !ex_style.layered)) ||
                    managed_override then
                  .ok true
                else
                  .ok false
        | _, _, _ => .ok false
      else
        .ok false

/-! ## Workspace-rule enforcement
(`WindowManager::enforce_workspace_rules`, `window_manager.rs` lines
219-333) -/

/-- `WORKSPACE_RULES` (`main.rs` line 69): a map from exe/title strings
to (monitor index, workspace index); the `HashMap` is modelled as an
association list with `List.lookup`. -/
def WorkspaceRules := List (String × Nat × Nat)

/-- `workspace_rules.get(&key)` over the association-list model. -/
def lookupRule (rules : WorkspaceRules) (s : String) : Option (Nat × Nat) :=
  List.lookup s rules

/-- The exe/title attribute reads performed by rule enforcement,
as total functions of the handle (the `?` on `window.exe()` /
`window.title()` never fires in any claim scenario, so read failures are
not modelled here). -/
structure WinEnv where
  exe : Int → String
  title : Int → String

/-- `EnforceWorkspaceRuleOp` (`window_manager.rs` lines 79-86). -/
structure EnforceWorkspaceRuleOp where
  hwnd : Int
  origin_monitor_idx : Nat
  origin_workspace_idx : Nat
  target_monitor_idx : Nat
  target_workspace_idx : Nat
deriving DecidableEq, Repr

/-- `EnforceWorkspaceRuleOp::is_origin` (`window_manager.rs` lines
89-91). -/
def EnforceWorkspaceRuleOp.is_origin (op : EnforceWorkspaceRuleOp)
    (monitor_idx workspace_idx : Nat) : Bool :=
  op.origin_monitor_idx == monitor_idx && op.origin_workspace_idx == workspace_idx

/-- `EnforceWorkspaceRuleOp::is_target` (`window_manager.rs` lines
93-95). -/
def EnforceWorkspaceRuleOp.is_target (op : EnforceWorkspaceRuleOp)
    (monitor_idx workspace_idx : Nat) : Bool :=
  op.target_monitor_idx == monitor_idx && op.target_workspace_idx == workspace_idx

/-- `EnforceWorkspaceRuleOp::is_enforced` (`window_manager.rs` lines
97-100): origin equals target. -/
def EnforceWorkspaceRuleOp.is_enforced (op : EnforceWorkspaceRuleOp) : Bool :=
  op.origin_monitor_idx == op.target_monitor_idx &&
    op.origin_workspace_idx == op.target_workspace_idx

/-- The op-collection loops of `enforce_workspace_rules`
(`window_manager.rs` lines 230-273): for every monitor `i`, workspace
`j` and visible window, look up its exe in the rules and, on a map miss,
its title; each hit yields one op. -/
def buildOps (env : WinEnv) (rules : WorkspaceRules) (wm : WindowManager) :
    List EnforceWorkspaceRuleOp :=
  wm.monitors.elements.enum.flatMap fun p =>
    p.2.workspaces.elements.enum.flatMap fun q =>
      (q.2.visible_windows.filterMap id).filterMap fun w =>
        match lookupRule rules (env.exe w.hwnd) with
        | some mw =>
          some { hwnd := w.hwnd, origin_monitor_idx := p.1,
                 origin_workspace_idx := q.1, target_monitor_idx := mw.1,
                 target_workspace_idx := mw.2 }
        | none =>
          match lookupRule rules (env.title w.hwnd) with
          | some mw =>
            some { hwnd := w.hwnd, origin_monitor_idx := p.1,
                   origin_workspace_idx := q.1, target_monitor_idx := mw.1,
                   target_workspace_idx := mw.2 }
          | none => none

/-- Pass 1 of `enforce_workspace_rules` (`window_manager.rs` lines
283-299): for each op, look up the origin workspace (the `ok_or_else`
chains error when an index is stale), hide the window and set the dirty
flag when the origin is the focused location, and remove the window from
the origin workspace (`?` propagates its error). -/
def enforcePassRemove (fm fw : Nat) :
    List EnforceWorkspaceRuleOp → WindowManager → Bool → List Effect →
      Except String (WindowManager × Bool × List Effect)
  | [], wm, dirty, effs => .ok (wm, dirty, effs)
  | op :: rest, wm, dirty, effs =>
    match wm.monitors.elements.get? op.origin_monitor_idx with
    | none => .error "there is no monitor with that index"
    | some m =>
      match m.workspaces.elements.get? op.origin_workspace_idx with
      | none => .error "there is no workspace with that index"
      | some ws =>
        let dirty1 := if op.is_origin fm fw then true else dirty
        let effs1 := if op.is_origin fm fw then effs ++ [Effect.hide op.hwnd]
                     else effs
        match ws.remove_window op.hwnd with
        | .error e => .error e
        | .ok ws1 =>
          enforcePassRemove fm fw rest
            (wm.setWorkspaceAt op.origin_monitor_idx op.origin_workspace_idx ws1)
            dirty1 effs1

/-- Pass 2 of `enforce_workspace_rules` (`window_manager.rs` lines
303-325): for each op, look up the target monitor; when the target
workspace does not exist yet, `ensure_workspace_count(target + 1)`;
then create a new container for the window on the target workspace. -/
def enforcePassInsert :
    List EnforceWorkspaceRuleOp → WindowManager → Except String WindowManager
  | [], wm => .ok wm
  | op :: rest, wm =>
    match wm.monitors.elements.get? op.target_monitor_idx with
    | none => .error "there is no monitor with that index"
    | some m =>
      let m1 := if (m.workspaces.elements.get? op.target_workspace_idx).isNone
                then m.ensure_workspace_count (op.target_workspace_idx + 1)
                else m
      match m1.workspaces.elements.get? op.target_workspace_idx with
      | none => .error "there is no workspace with that index"
      | some ws =>
        enforcePassInsert rest
          ((wm.setMonitorAt op.target_monitor_idx m1).setWorkspaceAt
            op.target_monitor_idx op.target_workspace_idx
            (ws.new_container_for_window { hwnd := op.hwnd }))

/-- Pass 2 as worded by claim C1: `ensure_workspace_count(target + 1)`
is called unconditionally ("ensures the target monitor has
target_workspace+1 workspaces"); `ensure_workspace_count` never shrinks,
so this coincides with the source's conditional call. -/
def enforcePassInsertClaim :
    List EnforceWorkspaceRuleOp → WindowManager → Except String WindowManager
  | [], wm => .ok wm
  | op :: rest, wm =>
    match wm.monitors.elements.get? op.target_monitor_idx with
    | none => .error "there is no monitor with that index"
    | some m =>
      let m1 := m.ensure_workspace_count (op.target_workspace_idx + 1)
      match m1.workspaces.elements.get? op.target_workspace_idx with
      | none => .error "there is no workspace with that index"
      | some ws =>
        enforcePassInsertClaim rest
          ((wm.setMonitorAt op.target_monitor_idx m1).setWorkspaceAt
            op.target_monitor_idx op.target_workspace_idx
            (ws.new_container_for_window { hwnd := op.hwnd }))

/-- `WindowManager::enforce_workspace_rules` (`window_manager.rs` lines
219-333): read the focused (monitor, workspace); collect one op per
matching visible window; drop ops targeting the focused location; drop
ops whose rule is already enforced (origin == target); pass 1 (remove,
hiding focused-workspace origins and marking the dirty flag); pass 2
(insert); finally `update_focused_workspace(false)` — one `reproject`
effect — exactly when the dirty flag was set. -/
def enforce_workspace_rules (env : WinEnv) (rules : WorkspaceRules)
    (wm : WindowManager) : Except String (WindowManager × List Effect) :=
  let focused_monitor_idx := wm.monitors.focused
  match wm.monitors.elements.get? focused_monitor_idx with
  | none => .error "there is no monitor with that index"
  | some m =>
    let focused_workspace_idx := m.workspaces.focused
    let ops0 := buildOps env rules wm
    let ops1 := ops0.filter fun op =>
      !(op.is_target focused_monitor_idx focused_workspace_idx)
    let to_move := ops1.filter fun op => !op.is_enforced
    match enforcePassRemove focused_monitor_idx focused_workspace_idx
        to_move wm false [] with
    | .error e => .error e
    | .ok (wm1, dirty, effs) =>
      match enforcePassInsert to_move wm1 with
      | .error e => .error e
      | .ok wm2 => .ok (wm2, if dirty then effs ++ [Effect.reproject] else effs)

/-- The claim-C1 reading of `enforce_workspace_rules`, step for step as
worded: one op per visible window whose exe (or, on exe miss, title) is
in the rules map; discard ops whose target is the focused location and
ops whose origin equals their target; pass 1 removes each op's window
from its origin (hiding it and setting the dirty flag when the origin is
focused); pass 2 ensures the target monitor has target+1 workspaces and
creates a new container on the target workspace; reproject exactly once,
and only when the dirty flag was set. -/
def enforce_workspace_rules_claim (env : WinEnv) (rules : WorkspaceRules)
    (wm : WindowManager) : Except String (WindowManager × List Effect) :=
  let focused_monitor_idx := wm.monitors.focused
  match wm.monitors.elements.get? focused_monitor_idx with
  | none => .error "there is no monitor with that index"
  | some m =>
    let focused_workspace_idx := m.workspaces.focused
    let ops0 := buildOps env rules wm
    let ops1 := ops0.filter fun op =>
      !(op.is_target focused_monitor_idx focused_workspace_idx)
    let to_move := ops1.filter fun op => !op.is_enforced
    match enforcePassRemove focused_monitor_idx focused_workspace_idx
        to_move wm false [] with
    | .error e => .error e
    | .ok (wm1, dirty, effs) =>
      match enforcePassInsertClaim to_move wm1 with
      | .error e => .error e
      | .ok wm2 => .ok (wm2, if dirty then effs ++ [Effect.reproject] else effs)

/-- Concrete instantiation of spec scenario 4 for the C1 witness: one
monitor whose only workspace holds one container with the window of
handle 7, whose exe reports "notepad.exe"; the rules send that exe to
monitor 0, workspace 1. -/
def wmScenario4 : WindowManager :=
  { monitors :=
      { elements :=
          [{ workspaces :=
              { elements :=
                  [{ containers :=
                      { elements := [{ windows := { elements := [⟨7⟩] } }] }
                     resize_dimensions := [none] }] } }] } }

/-- Attribute environment for the C1 witness. -/
def envScenario4 : WinEnv :=
  { exe := fun h => if h = 7 then "notepad.exe" else ""
    title := fun _ => "" }

/-- Rules for the C1 witness: notepad.exe belongs on monitor 0,
workspace 1. -/
def rulesScenario4 : WorkspaceRules := [("notepad.exe", 0, 1)]

/-! ## resize_window (`window_manager.rs` lines 397-470)

`resize_window` delegates to three `komorebi_core` functions that are
not in src/ — `Layout::calculate`, `Layout::resize` and
`OperationDirection::is_valid` — so the embedding is parameterised over
them; spec-modelled instantiations follow. -/

/-- Signature of `Layout::calculate` (missing from src/): the layout,
the work area, the container count, the container padding, the flip and
the resize dimensions produce one rect per container.  The layout
argument mirrors the `workspace.layout().calculate(...)` receiver. -/
def CalculateFn :=
  Layout → Rect → Nat → Option Int → Option Flip → List (Option Rect) → List Rect

/-- Signature of `Layout::resize` (missing from src/): the reference
rect, the current delta, the direction, the sizing and the step produce
a new delta. -/
def ResizeFn :=
  Layout → Rect → Option Rect → OperationDirection → Sizing → Option Int →
    Option Rect

/-- Signature of `OperationDirection::is_valid` (missing from src/):
direction, layout, flip, focused index and container count. -/
def IsValidFn := OperationDirection → Layout → Option Flip → Nat → Nat → Bool

/-- `WindowManager::resize_window` (`window_manager.rs` lines 397-470),
parameterised over the missing `komorebi_core` functions.  Mirrors the
source: focused monitor's work area (`?` errors); focused workspace
(`?` errors); the resize-slot lookup at the focused index (the
`ok_or_else` at lines 409-412 errors when absent); the `is_valid` gate;
`calculate` on the work area with the workspace's own `layout_flip` and
empty resize dimensions (line 420-428); the flip-dependent direction
inversion (lines 430-452); `layout.resize` (lines 454-462);
write-back at `resize_dimensions[focused_idx]` and
`update_focused_workspace(false)` — a `reproject` effect.  The
invalid-direction branch only warns and returns `Ok(())`. -/
def resize_window (calcf : CalculateFn) (res : ResizeFn) (valid : IsValidFn)
    (wm : WindowManager) (direction : OperationDirection) (sizing : Sizing)
    (step : Option Int) : WindowManager × List Effect × Except String Unit :=
  match wm.focused_monitor? with
  | none => (wm, [], .error "there is no monitor")
  | some mon =>
    let work_area := mon.work_area_size
    match mon.workspaces.elements.get? mon.workspaces.focused with
    | none => (wm, [], .error "there is no workspace")
    | some ws =>
      let len := ws.containers.elements.length
      let focused_idx := ws.containers.focused
      match ws.resize_dimensions.get? focused_idx with
      | none => (wm, [], .error "there is no resize adjustment for this container")
      | some focused_idx_resize =>
        if valid direction ws.layout ws.layout_flip focused_idx len then
          if len = 0 then
            (wm, [],
              .error "there must be at least one container to calculate a workspace layout")
          else
            let unaltered :=
              calcf ws.layout work_area len ws.container_padding ws.layout_flip []
            let direction1 :=
              match ws.layout_flip with
              | none => direction
              | some .horizontal =>
                if direction = .left ∨ direction = .right then direction.opposite
                else direction
              | some .vertical =>
                if direction = .up ∨ direction = .down then direction.opposite
                else direction
              | some .horizontalAndVertical => direction.opposite
            match unaltered.get? focused_idx with
            | none => (wm, [], .error "there is no last layout")
            | some reference =>
              let new_resize :=
                res ws.layout reference focused_idx_resize direction1 sizing step
              (wm.setFocusedWorkspace
                { ws with
                  resize_dimensions :=
                    ws.resize_dimensions.set focused_idx new_resize },
                [Effect.reproject], .ok ())
        else
          (wm, [], .ok ())

/-- Reflect a rect across the work-area midline(s); modelled from the
spec (§4.7): "Flip is applied last by reflecting each rectangle across
the work area midline(s)" (`right`/`bottom` are extents). -/
def reflect (area : Rect) (flip : Option Flip) (r : Rect) : Rect :=
  let fh (r : Rect) : Rect :=
    { r with left := 2 * area.left + area.right - r.left - r.right }
  let fv (r : Rect) : Rect :=
    { r with top := 2 * area.top + area.bottom - r.top - r.bottom }
  match flip with
  | none => r
  | some .horizontal => fh r
  | some .vertical => fv r
  | some .horizontalAndVertical => fv (fh r)

/-- Modelled from the spec (§4.7): the Columns layout — `n` equal
vertical strips with `container_padding` as inter-rectangle gap, the
`resize_dimensions[i]` delta added to the i-th rectangle before the
flip, and the flip applied last. -/
def columns_calculate (area : Rect) (n : Nat) (pad : Option Int)
    (flip : Option Flip) (deltas : List (Option Rect)) : List Rect :=
  let p := pad.getD 0
  let w := (area.right - ((n : Int) - 1) * p) / (n : Int)
  (List.range n).map fun (i : Nat) =>
    let base : Rect :=
      { left := area.left + (i : Int) * (w + p), top := area.top,
        right := w, bottom := area.bottom }
    let sized :=
      match deltas.getD i none with
      | none => base
      | some d =>
        { left := base.left + d.left, top := base.top + d.top,
          right := base.right + d.right, bottom := base.bottom + d.bottom }
    reflect area flip sized

/-- `CalculateFn` instantiation dispatching every layout to the
spec-modelled Columns arrangement (the claims only exercise Columns). -/
def calcColumns : CalculateFn :=
  fun _layout area n pad flip deltas => columns_calculate area n pad flip deltas

/-- Modelled from the spec (§4.4): directional validity for the Columns
layout — "Columns allows only Left/Right", and the geometric neighbor
must exist (Left: a container before the focused one; Right: one after).
Other layouts are not exercised by the claims and report false. -/
def columns_is_valid : IsValidFn := fun d layout _flip idx len =>
  match layout, d with
  | .columns, .left => decide (0 < idx ∧ idx < len)
  | .columns, .right => decide (idx + 1 < len)
  | _, _ => false

/-- A probe standing in for the missing `Layout::resize`: it returns the
reference rect it was handed as the new delta, making the internally
computed reference observable in `resize_dimensions`. -/
def probeResize : ResizeFn := fun _layout reference _ _ _ _ => some reference

/-- Concrete state for claim C4 (spec scenario 5 on the Columns layout):
one monitor with work area (0,0,1920,1080); the focused workspace uses
Columns, has two one-window containers, focused index 0, and
`layout_flip = Horizontal`. -/
def wmTwoColumnsFlipped : WindowManager :=
  { monitors :=
      { elements :=
          [{ work_area_size := { left := 0, top := 0, right := 1920, bottom := 1080 }
             workspaces :=
              { elements :=
                  [{ containers :=
                      { elements :=
                          [{ windows := { elements := [⟨1⟩] } },
                           { windows := { elements := [⟨2⟩] } }] }
                     layout := .columns
                     layout_flip := some .horizontal
                     resize_dimensions := [none, none] }] } }] } }

/-- Concrete state for claim C10's counterexample: one monitor whose
focused workspace uses Columns and holds no containers at all (the state
right after init, before any window is managed); `resize_dimensions` is
empty in step with `containers` (invariant I2). -/
def wmEmptyWorkspace : WindowManager :=
  { monitors :=
      { elements :=
          [{ work_area_size := { left := 0, top := 0, right := 1920, bottom := 1080 }
             workspaces :=
              { elements :=
                  [{ containers := { elements := [] }
                     layout := .columns }] } }] } }

/-- C5: for every layout rectangle, `Window::set_position` issues to the
OS the input expanded by the fixed invisible-border correction
(left −12, top −0, right +24, bottom +12); in particular
(0,0,1920,1080) is issued as (−12,0,1944,1092). -/
theorem set_position_border_correction (r : Rect) :
    set_position_issued_rect r =
      { left := r.left - 12, top := r.top - 0,
        right := r.right + 24, bottom := r.bottom + 12 } ∧
    set_position_issued_rect { left := 0, top := 0, right := 1920, bottom := 1080 } =
      { left := -12, top := 0, right := 1944, bottom := 1092 } := by
  constructor
  · simp [set_position_issued_rect]
  · rfl

/-- C3 counterexample: the claim says `flip_layout` computes the bitwise
XOR of the current flip state and the argument, but with the current
state `Horizontal` and the argument `HorizontalAndVertical` the code
(`window_manager.rs` line 771-773) sets `HorizontalAndVertical`, whereas
the XOR of the encodings (1 ^^^ 3 = 2) is `Vertical`. -/
theorem flip_layout_not_xor :
    flip_layout_next (some .horizontal) .horizontalAndVertical =
        some .horizontalAndVertical ∧
    flip_layout_xor_claim (some .horizontal) .horizontalAndVertical =
        some .vertical ∧
    (some Flip.horizontalAndVertical : Option Flip) ≠ some Flip.vertical := by
  refine ⟨rfl, rfl, by decide⟩

/-- C3 (amended): `flip_layout` sets the flip state to the bitwise XOR
of the current state and the argument, except when the current state is
a single axis (`Horizontal` or `Vertical`) and the argument is
`HorizontalAndVertical`, in which case it sets
`HorizontalAndVertical` (the two match arms at `window_manager.rs`
lines 771-773 and 780-782 saturate instead of toggling). -/
theorem flip_layout_xor_except_saturation (current : Option Flip) (f : Flip) :
    flip_layout_next current f =
      if (current = some .horizontal ∨ current = some .vertical) ∧
          f = .horizontalAndVertical
      then some .horizontalAndVertical
      else flip_layout_xor_claim current f := by
  cases current with
  | none => cases f <;> simp [flip_layout_next, flip_layout_xor_claim, flipBits, flipOfBits]
  | some c => cases c <;> cases f <;>
      simp [flip_layout_next, flip_layout_xor_claim, flipBits, flipOfBits]

lemma idxForWindowLoop_eq (l : List Window) (hwnd : Int) :
    ∀ (i : Nat) (acc : Option Nat),
      idxForWindowLoop l hwnd i acc =
        match lastMatchIdx l hwnd with
        | some p => some (i + p)
        | none => acc := by
  induction l with
  | nil => intro i acc; rfl
  | cons w rest ih =>
    intro i acc
    simp only [idxForWindowLoop, lastMatchIdx, ih]
    cases h : lastMatchIdx rest hwnd with
    | some p => simp [Nat.add_assoc, Nat.add_comm 1 p]
    | none =>
      by_cases hw : w.hwnd == hwnd <;> simp [hw]

lemma lastMatchIdx_none_iff (l : List Window) (hwnd : Int) :
    lastMatchIdx l hwnd = none ↔ ∀ w ∈ l, ¬ w.hwnd = hwnd := by
  induction l with
  | nil => simp [lastMatchIdx]
  | cons w rest ih =>
    simp only [lastMatchIdx]
    cases h : lastMatchIdx rest hwnd with
    | some p =>
      constructor
      · intro hc; exact Option.noConfusion hc
      · intro hall
        have h0 : lastMatchIdx rest hwnd = none :=
          ih.mpr fun w' hm => hall w' (List.mem_cons_of_mem _ hm)
        rw [h0] at h
        exact Option.noConfusion h
    | none =>
      by_cases hw : w.hwnd == hwnd
      · rw [if_pos hw]
        constructor
        · intro hc; exact Option.noConfusion hc
        · intro hall
          exact absurd (by simpa using hw) (hall w (List.mem_cons_self w rest))
      · rw [if_neg hw]
        constructor
        · intro _ w' hm
          rcases List.mem_cons.mp hm with rfl | hm'
          · simpa using hw
          · exact ih.mp h w' hm'
        · intro _; rfl

lemma lastMatchIdx_spec (l : List Window) (hwnd : Int) (p : Nat)
    (h : lastMatchIdx l hwnd = some p) :
    (∃ w, l.get? p = some w ∧ w.hwnd = hwnd) ∧
      ∀ j w, p < j → l.get? j = some w → ¬ w.hwnd = hwnd := by
  induction l generalizing p with
  | nil => simp [lastMatchIdx] at h
  | cons w rest ih =>
    simp only [lastMatchIdx] at h
    cases hr : lastMatchIdx rest hwnd with
    | some q =>
      rw [hr] at h
      obtain rfl : q + 1 = p := by simpa using h
      obtain ⟨⟨w0, hget, hw0⟩, hafter⟩ := ih q hr
      refine ⟨⟨w0, by simpa using hget, hw0⟩, ?_⟩
      intro j w' hj hget'
      match j, hj with
      | j + 1, hj =>
        exact hafter j w' (Nat.lt_of_succ_lt_succ hj) (by simpa using hget')
    | none =>
      rw [hr] at h
      by_cases hw : w.hwnd == hwnd
      · rw [if_pos hw] at h
        obtain rfl : 0 = p := by simpa using h
        refine ⟨⟨w, rfl, by simpa [beq_iff_eq] using hw⟩, ?_⟩
        intro j w' hj hget'
        match j, hj with
        | j + 1, _ =>
          exact (lastMatchIdx_none_iff rest hwnd).mp hr w'
            (List.get?_mem (by simpa using hget'))
      · rw [if_neg hw] at h; exact absurd h (by simp)

/-- C9: `idx_for_window` returns `some` index iff `contains_window`
returns true for that handle; and when it returns `some i`, the window
stored at `i` has that handle and no later index matches (the returned
index is the last matching one). -/
theorem idx_for_window_contains_window (c : Container) (hwnd : Int) :
    ((c.idx_for_window hwnd).isSome ↔ c.contains_window hwnd = true) ∧
    ∀ i, c.idx_for_window hwnd = some i →
      (∃ w, c.windows.elements.get? i = some w ∧ w.hwnd = hwnd) ∧
        ∀ j w, i < j → c.windows.elements.get? j = some w → ¬ w.hwnd = hwnd := by
  constructor
  · rw [Container.idx_for_window, idxForWindowLoop_eq, Container.contains_window]
    cases h : lastMatchIdx c.windows.elements hwnd with
    | some p =>
      obtain ⟨⟨w, hget, hw⟩, _⟩ := lastMatchIdx_spec _ _ _ h
      simp only [h, Option.isSome_some, true_iff]
      exact List.any_eq_true.mpr ⟨w, List.get?_mem hget, by simp [hw]⟩
    | none =>
      simp only [h, Option.isSome_none, Bool.false_eq_true, false_iff]
      intro hany
      obtain ⟨w, hmem, hw⟩ := List.any_eq_true.mp hany
      exact (lastMatchIdx_none_iff _ _).mp h w hmem (by simpa [beq_iff_eq] using hw)
  · intro i hi
    rw [Container.idx_for_window, idxForWindowLoop_eq] at hi
    cases h : lastMatchIdx c.windows.elements hwnd with
    | some p =>
      rw [h] at hi
      obtain rfl : p = i := by simpa using hi
      exact lastMatchIdx_spec _ _ _ h
    | none => rw [h] at hi; exact absurd hi (by simp)

/-- C9 witness: on a container whose windows have handles 5, 7, 5 the
theorem instantiates concretely: the index for handle 5 is 2 (the last
match), the stored window matches, and `contains_window` agrees. -/
theorem idx_for_window_contains_window_witness :
    (Container.idx_for_window { windows := { elements := [⟨5⟩, ⟨7⟩, ⟨5⟩] } } 5
        = some 2) ∧
    (∃ w, ([⟨5⟩, ⟨7⟩, (⟨5⟩ : Window)] : List Window).get? 2 = some w ∧
        w.hwnd = 5) ∧
      ∀ j w, 2 < j →
        ([⟨5⟩, ⟨7⟩, (⟨5⟩ : Window)] : List Window).get? j = some w →
          ¬ w.hwnd = 5 :=
  ⟨by decide,
   (idx_for_window_contains_window
      { windows := { elements := [⟨5⟩, ⟨7⟩, ⟨5⟩] } } 5).2 2 (by decide)⟩

/-- C6: `remove_focused_window` removes the window at the focused index;
if the removed index was at least 1 the focused index becomes
`removed_idx - 1`, otherwise it stays 0 — not a clamp to the new
length. -/
theorem remove_focused_window_refocus (c : Container)
    (h : c.windows.focused < c.windows.elements.length) :
    ((c.remove_focused_window).2.windows.elements =
        c.windows.elements.eraseIdx c.windows.focused) ∧
    ((c.remove_focused_window).1 = c.windows.elements.get? c.windows.focused) ∧
    ((c.remove_focused_window).2.windows.focused =
        if 1 ≤ c.windows.focused then c.windows.focused - 1 else 0) := by
  have hget : ∃ w, c.windows.elements.get? c.windows.focused = some w :=
    ⟨_, List.get?_eq_get h⟩
  obtain ⟨w, hw⟩ := hget
  simp only [Container.remove_focused_window, Container.remove_window_by_idx,
    Ring.remove, hw, Container.focus_window, Ring.focus]
  by_cases hz : c.windows.focused = 0
  · simp [hz]
  · have h1 : 1 ≤ c.windows.focused := Nat.one_le_iff_ne_zero.mpr hz
    simp [hz, h1]

/-- C6 witness: a container with three windows and focused index 1;
removal yields elements with index 1 erased and focused index 0, which
differs from the clamp-to-length rule (min 1 1 = 1). -/
theorem remove_focused_window_refocus_witness :
    (1 : Nat) < 3 ∧
    (((Container.remove_focused_window
        { windows := { elements := [⟨1⟩, ⟨2⟩, ⟨3⟩], focused := 1 } }).2.windows.elements =
        ([⟨1⟩, ⟨2⟩, ⟨3⟩] : List Window).eraseIdx 1) ∧
      ((Container.remove_focused_window
        { windows := { elements := [⟨1⟩, ⟨2⟩, ⟨3⟩], focused := 1 } }).1 =
        ([⟨1⟩, ⟨2⟩, ⟨3⟩] : List Window).get? 1) ∧
      ((Container.remove_focused_window
        { windows := { elements := [⟨1⟩, ⟨2⟩, ⟨3⟩], focused := 1 } }).2.windows.focused =
        if 1 ≤ 1 then 1 - 1 else 0)) ∧
    (0 : Nat) ≠ min 1 (3 - 1 - 1 + 1) :=
  ⟨by decide,
   remove_focused_window_refocus
     { windows := { elements := [⟨1⟩, ⟨2⟩, ⟨3⟩], focused := 1 } } (by decide),
   by decide⟩

/-! ## Claims C7 and C8 -/

/-- C7: when the focused container holds exactly one window,
`remove_window_from_container` returns the single-window error
synchronously and leaves the entire state unchanged — no window removed,
no container created, no effect emitted (the length check at
`window_manager.rs` lines 630-632 precedes every mutation). -/
theorem remove_window_from_container_single_window (wm : WindowManager)
    (c : Container) (hc : wm.focused_container? = some c)
    (h1 : c.windows.elements.length = 1) :
    wm.remove_window_from_container =
      (wm, [], .error "a container must have at least one window") := by
  simp [WindowManager.remove_window_from_container, hc, h1]

/-- C7 witness: on the one-window manager the focused container is that
single-window container and the reducer errors without touching the
state. -/
theorem remove_window_from_container_single_window_witness :
    wmOneWindow.focused_container? =
        some { windows := { elements := [⟨7⟩] } } ∧
    wmOneWindow.remove_window_from_container =
      (wmOneWindow, [], .error "a container must have at least one window") :=
  ⟨rfl,
   remove_window_from_container_single_window wmOneWindow
     { windows := { elements := [⟨7⟩] } } rfl rfl⟩

lemma removeFirstHwnd_of_nodup (reg : List Int) (h : Int)
    (hnd : reg.Nodup) :
    removeFirstHwnd reg h = reg.filter fun x => decide (x ≠ h) := by
  induction reg with
  | nil => rfl
  | cons x rest ih =>
    rcases List.nodup_cons.mp hnd with ⟨hx, hrest⟩
    by_cases hxh : x = h
    · subst hxh
      have e1 : removeFirstHwnd (x :: rest) x = rest := by
        simp [removeFirstHwnd]
      rw [e1, List.filter_cons, if_neg (by simp)]
      symm
      rw [List.filter_eq_self]
      intro b hb
      exact decide_eq_true fun hbx => hx (hbx ▸ hb)
    · have e1 : removeFirstHwnd (x :: rest) h = x :: removeFirstHwnd rest h := by
        simp [removeFirstHwnd, hxh]
      rw [e1, ih hrest, List.filter_cons, if_pos (by simp [hxh])]

lemma foldl_removeFirstHwnd (hwnds : List Int) :
    ∀ reg : List Int, reg.Nodup →
      hwnds.foldl removeFirstHwnd reg = reg.filter fun x => decide (x ∉ hwnds) := by
  induction hwnds with
  | nil =>
    intro reg _
    simp
  | cons w rest ih =>
    intro reg hnd
    have step : removeFirstHwnd reg w = reg.filter fun x => decide (x ≠ w) :=
      removeFirstHwnd_of_nodup reg w hnd
    calc (w :: rest).foldl removeFirstHwnd reg
        = rest.foldl removeFirstHwnd (removeFirstHwnd reg w) := rfl
      _ = (removeFirstHwnd reg w).filter (fun x => decide (x ∉ rest)) := by
          refine ih _ ?_
          rw [step]
          exact hnd.filter _
      _ = reg.filter fun x => decide (x ∉ w :: rest) := by
          rw [step, List.filter_filter]
          refine List.filter_congr ?_
          intro x _
          by_cases hxw : x = w
          · simp [hxw]
          · by_cases hxr : x ∈ rest <;> simp [hxw, hxr]

/-- C8 counterexample: the claim says the finalization path restores
(and thereby removes from the registry) every handle recorded in
`hidden_hwnds`; but `restore_all_windows` only visits windows inside
containers of the hierarchy, so a registered handle (42) that is not in
any container — e.g. a floating window hidden when its workspace lost
focus — survives finalization in the registry. -/
theorem ctrlc_finalize_leaves_registry_entry :
    (ctrlc_finalize wmOneWindow [7, 42]).1 = [42] ∧
    (42 : Int) ∈ [(7 : Int), 42] ∧
    ([42] : List Int) ≠ [] := by
  refine ⟨rfl, by decide, by decide⟩

/-- C8 (amended): on the interrupt signal the finalization path restores
every window present in the hierarchy's containers — removing exactly
those handles from the (duplicate-free) registry — and exits with status
130; registry handles not belonging to any container window remain. -/
theorem ctrlc_finalize_restores_container_windows (wm : WindowManager)
    (reg : List Int) (hnd : reg.Nodup) :
    ctrlc_finalize wm reg =
      (reg.filter (fun h => decide (h ∉ wm.all_container_hwnds)), 130) := by
  unfold ctrlc_finalize WindowManager.restore_all_windows
  rw [foldl_removeFirstHwnd _ reg hnd]

/-- C8 witness: with registry [7, 42] and a hierarchy whose only
container window has handle 7, finalization removes 7 (its window is
restored), keeps 42, and exits 130. -/
theorem ctrlc_finalize_restores_container_windows_witness :
    List.Nodup [(7 : Int), 42] ∧
    ctrlc_finalize wmOneWindow [7, 42] =
      ([(7 : Int), 42].filter
        (fun h => decide (h ∉ wmOneWindow.all_container_hwnds)), 130) :=
  ⟨by decide,
   ctrlc_finalize_restores_container_windows wmOneWindow [7, 42] (by decide)⟩

/-! ## Claim C2 -/

lemma should_manage_gate_iff (gate : Bool) (fl mg lw : List String)
    (t e c : String) (st : GwlStyle) (ex : GwlExStyle) :
    ((if gate then
        (if fl.contains t || fl.contains e || fl.contains c then
          (Except.ok false : Except Unit Bool)
         else if st.caption && ex.windowedge && !ex.dlgmodalframe &&
              (lw.contains e || !ex.layered) ||
                (mg.contains e || mg.contains c) then
           Except.ok true
         else Except.ok false)
      else Except.ok false) = Except.ok true) ↔
      (gate = true ∧ ¬ (t ∈ fl ∨ e ∈ fl ∨ c ∈ fl) ∧
        ((st.caption = true ∧ ex.windowedge = true ∧
            ex.dlgmodalframe = false ∧ (ex.layered = false ∨ e ∈ lw)) ∨
          (e ∈ mg ∨ c ∈ mg))) := by
  cases gate with
  | false => simp
  | true =>
    simp only [if_true, true_and]
    cases hF : (fl.contains t || fl.contains e || fl.contains c) with
    | true =>
      have hFP : t ∈ fl ∨ e ∈ fl ∨ c ∈ fl := by
        rcases Bool.or_eq_true_iff.mp hF with h1 | h1
        · rcases Bool.or_eq_true_iff.mp h1 with h2 | h2
          · exact Or.inl (by simpa [List.elem_eq_mem] using h2)
          · exact Or.inr (Or.inl (by simpa [List.elem_eq_mem] using h2))
        · exact Or.inr (Or.inr (by simpa [List.elem_eq_mem] using h1))
      simp [hFP]
    | false =>
      have hFP : ¬ (t ∈ fl ∨ e ∈ fl ∨ c ∈ fl) := by
        intro hmem
        have : (fl.contains t || fl.contains e || fl.contains c) = true := by
          rcases hmem with h1 | h1 | h1 <;> simp [List.elem_eq_mem, h1]
        rw [hF] at this
        exact Bool.noConfusion this
      simp only [Bool.false_eq_true, if_false, hFP, not_false_eq_true, true_and]
      cases hC : (st.caption && ex.windowedge && !ex.dlgmodalframe &&
          (lw.contains e || !ex.layered) ||
            (mg.contains e || mg.contains c)) with
      | true =>
        have hCP : (st.caption = true ∧ ex.windowedge = true ∧
            ex.dlgmodalframe = false ∧ (ex.layered = false ∨ e ∈ lw)) ∨
              (e ∈ mg ∨ c ∈ mg) := by
          rcases Bool.or_eq_true_iff.mp hC with h1 | h1
          · left
            simp only [Bool.and_eq_true, Bool.not_eq_true',
              Bool.or_eq_true, List.elem_eq_mem, decide_eq_true_eq] at h1
            obtain ⟨⟨⟨hcap, hwe⟩, hdlg⟩, hlay⟩ := h1
            exact ⟨hcap, hwe, hdlg, hlay.symm.imp_left id⟩
          · right
            simpa [List.elem_eq_mem] using h1
        simp [hCP]
      | false =>
        have hCP : ¬ ((st.caption = true ∧ ex.windowedge = true ∧
            ex.dlgmodalframe = false ∧ (ex.layered = false ∨ e ∈ lw)) ∨
              (e ∈ mg ∨ c ∈ mg)) := by
          intro hp
          have hC2 : (st.caption && ex.windowedge && !ex.dlgmodalframe &&
              (lw.contains e || !ex.layered) ||
                (mg.contains e || mg.contains c)) = true := by
            apply Bool.or_eq_true_iff.mpr
            rcases hp with ⟨hcap, hwe, hdlg, hlay⟩ | hov
            · left
              simp only [Bool.and_eq_true, Bool.not_eq_true', Bool.or_eq_true,
                List.elem_eq_mem, decide_eq_true_eq]
              exact ⟨⟨⟨hcap, hwe⟩, hdlg⟩, hlay.symm.imp_right id⟩
            · right
              rcases hov with h1 | h1 <;> simp [List.elem_eq_mem, h1]
          rw [hC] at hC2
          exact Bool.noConfusion hC2
        simp [hCP]

/-- C2: for a window whose attribute reads all succeed, `should_manage`
returns `Ok(true)` iff: the window is not cloaked unless the event is a
`Hide` event; none of title, exe, class is in the float-identifier list;
and either the style contains CAPTION, the ex-style contains WINDOWEDGE,
the ex-style lacks DLGMODALFRAME, and the ex-style lacks LAYERED or the
exe is whitelisted — or the exe or class is in the manage-identifier
override list.  (The claim's first conjunct, a successful title read, is
the hypothesis `ht`.) -/
theorem should_manage_iff (fl mg lw : List String) (w : WindowInfo)
    (event : Option WindowManagerEvent) (t e c : String) (k : Bool)
    (st : GwlStyle) (ex : GwlExStyle)
    (ht : w.title = some t) (he : w.exe = some e) (hc : w.wclass = some c)
    (hk : w.cloaked = some k) (hst : w.style = some st)
    (hex : w.ex_style = some ex) :
    should_manage fl mg lw w event = .ok true ↔
      ((event = some .hideEv ∨ k = false) ∧
        ¬ (t ∈ fl ∨ e ∈ fl ∨ c ∈ fl) ∧
        ((st.caption = true ∧ ex.windowedge = true ∧
            ex.dlgmodalframe = false ∧ (ex.layered = false ∨ e ∈ lw)) ∨
          (e ∈ mg ∨ c ∈ mg))) := by
  simp only [should_manage, ht, he, hc, hk, hst, hex]
  refine (should_manage_gate_iff _ fl mg lw t e c st ex).trans ?_
  refine and_congr ?_ Iff.rfl
  cases event with
  | none => cases k <;> simp
  | some ev => cases ev <;> cases k <;> simp

/-- C2 witness: a non-cloaked window with CAPTION and WINDOWEDGE set,
DLGMODALFRAME and LAYERED clear, clean of every identifier list, with no
event: the iff instantiates and both sides hold. -/
theorem should_manage_iff_witness :
    (should_manage ["float.exe"] [] []
        { title := some "doc", exe := some "app.exe", wclass := some "AppClass",
          cloaked := some false, style := some { caption := true },
          ex_style := some { windowedge := true, dlgmodalframe := false,
                             layered := false } } none
      = .ok true ↔
      ((none = some WindowManagerEvent.hideEv ∨ false = false) ∧
        ¬ ("doc" ∈ ["float.exe"] ∨ "app.exe" ∈ ["float.exe"] ∨
            "AppClass" ∈ ["float.exe"]) ∧
        ((true = true ∧ true = true ∧ false = false ∧
            (false = false ∨ "app.exe" ∈ ([] : List String))) ∨
          ("app.exe" ∈ ([] : List String) ∨
            "AppClass" ∈ ([] : List String))))) :=
  should_manage_iff ["float.exe"] [] []
    { title := some "doc", exe := some "app.exe", wclass := some "AppClass",
      cloaked := some false, style := some { caption := true },
      ex_style := some { windowedge := true, dlgmodalframe := false,
                         layered := false } } none
    "doc" "app.exe" "AppClass" false { caption := true }
    { windowedge := true, dlgmodalframe := false, layered := false }
    rfl rfl rfl rfl rfl rfl

/-! ## Claim C1 -/

lemma ensure_workspace_count_of_lt (m : Monitor) (t : Nat)
    (h : t < m.workspaces.elements.length) :
    m.ensure_workspace_count (t + 1) = m := by
  unfold Monitor.ensure_workspace_count
  have h0 : t + 1 - m.workspaces.elements.length = 0 := by omega
  rw [h0, List.replicate_zero, List.append_nil]

lemma enforcePassInsert_eq_claim (ops : List EnforceWorkspaceRuleOp) :
    ∀ wm, enforcePassInsert ops wm = enforcePassInsertClaim ops wm := by
  induction ops with
  | nil => intro wm; rfl
  | cons op rest ih =>
    intro wm
    unfold enforcePassInsert enforcePassInsertClaim
    split
    · rfl
    · rename_i m hm
      by_cases hws :
          (m.workspaces.elements.get? op.target_workspace_idx).isNone = true
      · rw [if_pos hws]
        simp only [ih]
      · have hlt : op.target_workspace_idx < m.workspaces.elements.length := by
          rcases ho : m.workspaces.elements.get? op.target_workspace_idx with _ | ws
          · rw [ho] at hws; simp at hws
          · obtain ⟨hl, _⟩ := List.get?_eq_some.mp ho
            exact hl
        rw [if_neg hws, ensure_workspace_count_of_lt m _ hlt]
        simp only [ih]

lemma enforcePassRemove_count_reproject (fm fw : Nat)
    (ops : List EnforceWorkspaceRuleOp) :
    ∀ wm dirty effs wm1 dirty1 effs1,
      enforcePassRemove fm fw ops wm dirty effs = .ok (wm1, dirty1, effs1) →
      effs1.countP (fun e => e == Effect.reproject) =
        effs.countP (fun e => e == Effect.reproject) := by
  induction ops with
  | nil =>
    intro wm dirty effs wm1 dirty1 effs1 h
    simp only [enforcePassRemove, Except.ok.injEq, Prod.mk.injEq] at h
    rw [← h.2.2]
  | cons op rest ih =>
    intro wm dirty effs wm1 dirty1 effs1 h
    unfold enforcePassRemove at h
    split at h
    · exact absurd h (by simp)
    · split at h
      · exact absurd h (by simp)
      · repeat' split at h
        all_goals try exact Except.noConfusion h
        all_goals
          have hcount := ih _ _ _ _ _ _ h
          rw [hcount]
          try simp [List.countP_append, List.countP_cons]

/-- C1: `enforce_workspace_rules` performs exactly the claim's pipeline —
one op per visible window matched by exe then (on exe miss) title;
discard target-is-focused and origin-equals-target ops; pass 1 removes
(hiding and marking dirty on the focused origin); pass 2 ensures
target_workspace+1 workspaces and creates the target container; and the
focused workspace is reprojected at most once, exactly when the dirty
flag was set (the source's conditional `ensure_workspace_count` coincides
with the claim's unconditional one because `ensure` never shrinks). -/
theorem enforce_workspace_rules_steps (env : WinEnv) (rules : WorkspaceRules)
    (wm : WindowManager) :
    enforce_workspace_rules env rules wm =
      enforce_workspace_rules_claim env rules wm ∧
    ∀ wm2 effs, enforce_workspace_rules env rules wm = .ok (wm2, effs) →
      effs.countP (fun e => e == Effect.reproject) ≤ 1 := by
  constructor
  · unfold enforce_workspace_rules enforce_workspace_rules_claim
    simp only [enforcePassInsert_eq_claim]
  · intro wm2 effs h
    simp only [enforce_workspace_rules] at h
    split at h
    · exact absurd h (by simp)
    · split at h
      · exact absurd h (by simp)
      · rename_i wm1 dirty effs0 hp1
        split at h
        · exact absurd h (by simp)
        · simp only [Except.ok.injEq, Prod.mk.injEq] at h
          have hc0 : effs0.countP (fun e => e == Effect.reproject) = 0 :=
            enforcePassRemove_count_reproject _ _ _ _ _ _ _ _ _ hp1
          rw [← h.2]
          cases dirty with
          | false => simp [hc0]
          | true => simp [List.countP_append, List.countP_cons, hc0]

/-- C1 witness: spec scenario 4 — the notepad window on the focused
(0,0) workspace is hidden, removed from workspace 0, a second workspace
is created on monitor 0 holding a new container for it, and exactly one
reprojection is issued (the dirty flag was set); the claim-step pipeline
agrees with the source. -/
theorem enforce_workspace_rules_steps_witness :
    enforce_workspace_rules envScenario4 rulesScenario4 wmScenario4 =
      enforce_workspace_rules_claim envScenario4 rulesScenario4 wmScenario4 ∧
    List.countP (fun e => e == Effect.reproject)
        [Effect.hide 7, Effect.reproject] ≤ 1 :=
  ⟨(enforce_workspace_rules_steps envScenario4 rulesScenario4 wmScenario4).1,
   (enforce_workspace_rules_steps envScenario4 rulesScenario4 wmScenario4).2
     { monitors :=
        { elements :=
            [{ workspaces :=
                { elements :=
                    [{ containers := { elements := [] } },
                     { containers :=
                        { elements := [{ windows := { elements := [⟨7⟩] } }] }
                       resize_dimensions := [none] }] } }] } }
     [Effect.hide 7, Effect.reproject] rfl⟩

/-! ## Claims C4 and C10 -/

/-- C4: the source passes the workspace's own `layout_flip` to
`layout.calculate` (`window_manager.rs` line 425), so the reference rect
handed to `layout.resize` is the flip-applied rectangle, not the
unflipped one the claim (and the code's own comment at lines 432-433)
describes.  With the probe recording the reference it receives, the
delta stored at `resize_dimensions[0]` is the flipped rect
(960,0,960,1080); the unflipped Columns rectangle at the focused index
is (0,0,960,1080). -/
theorem resize_window_reference_rect_is_flipped :
    ((resize_window calcColumns probeResize columns_is_valid
        wmTwoColumnsFlipped .right .increase none).1.focused_workspace?.map
          Workspace.resize_dimensions) =
      some [some { left := 960, top := 0, right := 960, bottom := 1080 }, none] ∧
    columns_calculate { left := 0, top := 0, right := 1920, bottom := 1080 } 2
        none (some .horizontal) [] =
      [{ left := 960, top := 0, right := 960, bottom := 1080 },
       { left := 0, top := 0, right := 960, bottom := 1080 }] ∧
    columns_calculate { left := 0, top := 0, right := 1920, bottom := 1080 } 2
        none none [] =
      [{ left := 0, top := 0, right := 960, bottom := 1080 },
       { left := 960, top := 0, right := 960, bottom := 1080 }] := by
  refine ⟨by decide, by decide, by decide⟩

/-- C10 counterexample: on a focused workspace with no containers (the
state right after init) the requested direction is invalid, yet
`resize_window` does not return `Ok`: the resize-slot lookup at
`window_manager.rs` lines 409-412 runs before the `is_valid` gate and
errors out. -/
theorem resize_window_errors_without_resize_slot :
    resize_window calcColumns probeResize columns_is_valid wmEmptyWorkspace
        .left .increase none =
      (wmEmptyWorkspace, [],
        .error "there is no resize adjustment for this container") ∧
    columns_is_valid .left .columns none 0 0 = false ∧
    Except.error "there is no resize adjustment for this container" ≠
      (Except.ok () : Except String Unit) := by
  refine ⟨rfl, rfl, by simp⟩

/-- C10 (amended): when the focused workspace exists and has a resize
slot at the focused index, an invalid direction makes `resize_window`
return `Ok(())` (merely warning) with the whole state unchanged — no
effect is emitted and `resize_dimensions` is untouched. -/
theorem resize_window_invalid_direction_noop (calcf : CalculateFn)
    (res : ResizeFn) (valid : IsValidFn) (wm : WindowManager)
    (direction : OperationDirection) (sizing : Sizing) (step : Option Int)
    (mon : Monitor) (ws : Workspace)
    (hm : wm.focused_monitor? = some mon)
    (hw : mon.workspaces.elements.get? mon.workspaces.focused = some ws)
    (hr : (ws.resize_dimensions.get? ws.containers.focused).isSome = true)
    (hv : valid direction ws.layout ws.layout_flip ws.containers.focused
        ws.containers.elements.length = false) :
    resize_window calcf res valid wm direction sizing step =
      (wm, [], .ok ()) := by
  obtain ⟨v, hv2⟩ := Option.isSome_iff_exists.mp hr
  simp only [resize_window, hm, hw, hv2, hv]
  simp

/-- C10 witness: direction Up is invalid on the two-container Columns
workspace; `resize_window` returns the input state, no effects, and
`Ok(())`. -/
theorem resize_window_invalid_direction_noop_witness :
    columns_is_valid .up Layout.columns (some Flip.horizontal) 0 2 = false ∧
    resize_window calcColumns probeResize columns_is_valid
        wmTwoColumnsFlipped .up .increase none =
      (wmTwoColumnsFlipped, [], .ok ()) :=
  ⟨rfl,
   resize_window_invalid_direction_noop calcColumns probeResize
     columns_is_valid wmTwoColumnsFlipped .up .increase none _ _
     rfl rfl rfl rfl⟩

end Komorebi
